import Mathlib

/-! # The PDF/JSON bridge of `src/cbinding/pqdf.cc`

The file embeds the two bridge functions `convert_pdf_to_json` and
`convert_json_to_pdf`.  Both build a `QPDFJob`, configure it through the
chained calls `inputFile`, `jsonOutput("latest")` / `jsonInput()`,
`outputFile`, call `run()`, return `0`, and translate every caught
`std::exception` into a `std::runtime_error` with a fixed leading text.

`QPDFJob` belongs to an external library.  Its behaviour is a parameter of
the embedding (structure `QPDFJob`): every library call is a function from the
state of the outside world (`W`: files, process-wide library state) to a
result that is either a normal return or a thrown value, together with the
world the call left.  The state of the local object `job` is passed
explicitly (`J`): a configuration call returns the state the object has after
it, and `run` receives the state left by the last configuration call.  The
two `char*` arguments are valid C strings, modelled as `String`.  The end of
the lifetime of `job` and the building of the message text are taken to have
no effect on the world and not to throw.
-/

namespace Pqdf

/-! ## Thrown values and results -/

/-- What a C++ `throw` can deliver, classified the way the handler
`catch (const std::exception& e)` of the bridge distinguishes it. -/
inductive Thrown where
  /-- a `std::runtime_error` whose `what()` is the given text -/
  | runtime_error (what : String)
  /-- an object of another class derived from `std::exception` -/
  | std_exception (what : String)
  /-- a thrown value whose type is not derived from `std::exception` -/
  | non_std (tag : Nat)
  deriving DecidableEq, Repr

/-- The text `e.what()` of a thrown value that the handler
`catch (const std::exception& e)` accepts; `none` when the handler does not
match. -/
def Thrown.what? : Thrown → Option String
  | .runtime_error m => some m
  | .std_exception m => some m
  | .non_std _ => none

/-- Result of running a piece of C++ from a world state: the returned value or
the thrown value, each with the world the code left behind. -/
inductive Res (W α : Type) where
  | ret (a : α) (w : W)
  | raise (t : Thrown) (w : W)
  deriving DecidableEq, Repr

/-- The world a piece of code left behind. -/
def Res.world {W α : Type} : Res W α → W
  | .ret _ w => w
  | .raise _ w => w

/-- What the caller observes of a call: the returned value or the thrown
value. -/
def Res.outcome {W α : Type} : Res W α → Except Thrown α
  | .ret a _ => .ok a
  | .raise t _ => .error t

/-- Sequencing of statements: the continuation runs only when the first
statement returned; a thrown value skips it. -/
def Res.andThen {W α β : Type} (r : Res W α) (k : α → W → Res W β) : Res W β :=
  match r with
  | .ret a w => k a w
  | .raise t w => .raise t w

/-- The statement `try body catch (const std::exception& e) handler`: a thrown
value derived from `std::exception` enters the handler with its `what()`; a
normal return and any other thrown value pass through. -/
def catch_std_exception {W α : Type} (body : Res W α)
    (handler : String → W → Res W α) : Res W α :=
  match body with
  | .ret a w => .ret a w
  | .raise t w =>
    match t.what? with
    | some m => handler m w
    | none => .raise t w

/-! ## The external library -/

/-- The calls of class `QPDFJob` (header `qpdf/QPDFJob.hh`) that the bridge
uses.  `construct` is the declaration `QPDFJob job;`, `config` is
`job.config()`; the configuration methods return the handle they were called
on, here the state of the job after the call. -/
structure QPDFJob (W J : Type) where
  construct : W → Res W J
  config : J → W → Res W J
  inputFile : J → String → W → Res W J
  jsonOutput : J → String → W → Res W J
  jsonInput : J → W → Res W J
  outputFile : J → String → W → Res W J
  run : J → W → Res W Unit

/-! ## The bridge -/

/-- Lines 9-22 of `pqdf.cc`. -/
def convert_pdf_to_json {W J : Type} (L : QPDFJob W J)
    (input_file output_file : String) (w : W) : Res W Int :=
  catch_std_exception
    ((L.construct w).andThen fun job w1 =>
      (L.config job w1).andThen fun job w2 =>
      (L.inputFile job input_file w2).andThen fun job w3 =>
      (L.jsonOutput job "latest" w3).andThen fun job w4 =>
      (L.outputFile job output_file w4).andThen fun job w5 =>
      (L.run job w5).andThen fun _ w6 =>
      .ret 0 w6)
    (fun m w7 => .raise (.runtime_error ("PDF conversion failed: " ++ m)) w7)

/-- Lines 24-37 of `pqdf.cc`. -/
def convert_json_to_pdf {W J : Type} (L : QPDFJob W J)
    (input_file output_file : String) (w : W) : Res W Int :=
  catch_std_exception
    ((L.construct w).andThen fun job w1 =>
      (L.config job w1).andThen fun job w2 =>
      (L.inputFile job input_file w2).andThen fun job w3 =>
      (L.jsonInput job w3).andThen fun job w4 =>
      (L.outputFile job output_file w4).andThen fun job w5 =>
      (L.run job w5).andThen fun _ w6 =>
      .ret 0 w6)
    (fun m w7 => .raise (.runtime_error ("JSON conversion failed: " ++ m)) w7)

/-! ## The underlying job, seen apart from the bridge -/

/-- The library calls that `convert_pdf_to_json` makes, in the order of the
source, without the `return 0` and without the handler. -/
def pdf_to_json_job {W J : Type} (L : QPDFJob W J)
    (input_file output_file : String) (w : W) : Res W Unit :=
  (L.construct w).andThen fun job w1 =>
    (L.config job w1).andThen fun job w2 =>
    (L.inputFile job input_file w2).andThen fun job w3 =>
    (L.jsonOutput job "latest" w3).andThen fun job w4 =>
    (L.outputFile job output_file w4).andThen fun job w5 =>
    L.run job w5

/-- The library calls that `convert_json_to_pdf` makes, in the order of the
source, without the `return 0` and without the handler. -/
def json_to_pdf_job {W J : Type} (L : QPDFJob W J)
    (input_file output_file : String) (w : W) : Res W Unit :=
  (L.construct w).andThen fun job w1 =>
    (L.config job w1).andThen fun job w2 =>
    (L.inputFile job input_file w2).andThen fun job w3 =>
    (L.jsonInput job w3).andThen fun job w4 =>
    (L.outputFile job output_file w4).andThen fun job w5 =>
    L.run job w5

/-! ## Observing the library calls -/

/-- A call of the library as the bridge writes it, with its arguments. -/
inductive Call where
  | construct
  | config
  | inputFile (filename : String)
  | jsonOutput (version : String)
  | jsonInput
  | outputFile (filename : String)
  | run
  deriving DecidableEq, Repr

/-- One executed library call: which call it was, and the value it threw, if
it threw. -/
structure Event where
  call : Call
  thrown : Option Thrown
  deriving DecidableEq, Repr

/-- Appends the record of an executed call to the log kept beside the world. -/
def logged {W α : Type} (c : Call) (r : Res W α) (log : List Event) :
    Res (W × List Event) α :=
  match r with
  | .ret a w => .ret a (w, log ++ [⟨c, none⟩])
  | .raise t w => .raise t (w, log ++ [⟨c, some t⟩])

/-- The library `L` with a log: every call behaves as in `L` and is recorded,
with its arguments, in the second component of the world. -/
def traced {W J : Type} (L : QPDFJob W J) : QPDFJob (W × List Event) J where
  construct := fun s => logged .construct (L.construct s.1) s.2
  config := fun j s => logged .config (L.config j s.1) s.2
  inputFile := fun j f s => logged (.inputFile f) (L.inputFile j f s.1) s.2
  jsonOutput := fun j v s => logged (.jsonOutput v) (L.jsonOutput j v s.1) s.2
  jsonInput := fun j s => logged .jsonInput (L.jsonInput j s.1) s.2
  outputFile := fun j f s => logged (.outputFile f) (L.outputFile j f s.1) s.2
  run := fun j s => logged .run (L.run j s.1) s.2

/-- Forgets the log of a result of the traced library. -/
def Res.unlog {W α : Type} : Res (W × List Event) α → Res W α
  | .ret a s => .ret a s.1
  | .raise t s => .raise t s.1

/-- The log of a result of the traced library. -/
def Res.log {W α : Type} (r : Res (W × List Event) α) : List Event :=
  r.world.2

/-- The library calls written in `convert_pdf_to_json`, in source order. -/
def pdf_to_json_calls (input_file output_file : String) : List Call :=
  [.construct, .config, .inputFile input_file, .jsonOutput "latest",
   .outputFile output_file, .run]

/-- The library calls written in `convert_json_to_pdf`, in source order. -/
def json_to_pdf_calls (input_file output_file : String) : List Call :=
  [.construct, .config, .inputFile input_file, .jsonInput,
   .outputFile output_file, .run]

/-- What the handler of a bridge function makes of a thrown value: a value
derived from `std::exception` becomes a `std::runtime_error` whose text is the
leading text of the function followed by `what()`; any other value is not
caught. -/
def rethrown (lead : String) (t : Thrown) : Thrown :=
  match t.what? with
  | some m => .runtime_error (lead ++ m)
  | none => t

/-! ## Sequences of calls -/

/-- A call of one of the two functions exported by the module. -/
inductive Request where
  | pdf_to_json (input_file output_file : String)
  | json_to_pdf (input_file output_file : String)
  deriving DecidableEq, Repr

/-- Serves one request with the corresponding bridge function. -/
def serve {W J : Type} (L : QPDFJob W J) (r : Request) (w : W) : Res W Int :=
  match r with
  | .pdf_to_json i o => convert_pdf_to_json L i o w
  | .json_to_pdf i o => convert_json_to_pdf L i o w

/-- The library calls behind one request. -/
def job_of {W J : Type} (L : QPDFJob W J) (r : Request) (w : W) : Res W Unit :=
  match r with
  | .pdf_to_json i o => pdf_to_json_job L i o w
  | .json_to_pdf i o => json_to_pdf_job L i o w

/-- The world after a sequence of earlier requests, each served from the
world its predecessor left.  Nothing but the world is handed on: the source
has no static or global variable. -/
def world_after {W J : Type} (L : QPDFJob W J) (history : List Request) (w : W) : W :=
  history.foldl (fun v r => (serve L r v).world) w

/-! ## A sample library over a file table

The definitions below are one possible behaviour of the external library,
used to instantiate the general statements at concrete inputs.  The job
object stores its settings; `run` reads the input file and writes the output
file byte by byte, and stops with an exception at a byte `255`, leaving what
it had written so far; `outputFile` rejects the name of the input file. -/

/-- A file table: names with their bytes. -/
abbrev Files := List (String × List Nat)

/-- Content of a file, if the file exists. -/
def Files.read (fs : Files) (name : String) : Option (List Nat) :=
  fs.lookup name

/-- Creates or replaces a file. -/
def Files.write (fs : Files) (name : String) (bytes : List Nat) : Files :=
  (name, bytes) :: fs.filter (fun e => e.1 != name)

/-- Settings stored in the sample job object. -/
structure SampleJob where
  infile : Option String
  outfile : Option String
  json_version : Option String
  json_input : Bool
  deriving DecidableEq, Repr

/-- The `run` of the sample library. -/
def sample_run (j : SampleJob) (fs : Files) : Res Files Unit :=
  match j.infile, j.outfile with
  | some i, some o =>
    match fs.read i with
    | none => .raise (.runtime_error ("open " ++ i ++ ": No such file or directory")) fs
    | some bytes =>
      let written := bytes.takeWhile (fun b => b != 255)
      if written.length = bytes.length then .ret () (fs.write o written)
      else .raise (.std_exception "damaged input") (fs.write o written)
  | _, _ => .raise (.runtime_error "an input file name is required") fs

/-- The sample library. -/
def sampleLib : QPDFJob Files SampleJob where
  construct := fun fs => .ret ⟨none, none, none, false⟩ fs
  config := fun j fs => .ret j fs
  inputFile := fun j f fs => .ret ⟨some f, j.outfile, j.json_version, j.json_input⟩ fs
  jsonOutput := fun j v fs =>
    if v = "latest" then .ret ⟨j.infile, j.outfile, some v, j.json_input⟩ fs
    else .raise (.runtime_error ("invalid JSON version " ++ v)) fs
  jsonInput := fun j fs => .ret ⟨j.infile, j.outfile, j.json_version, true⟩ fs
  outputFile := fun j f fs =>
    if j.infile = some f then
      .raise (.runtime_error "input file and output file are the same") fs
    else .ret ⟨j.infile, some f, j.json_version, j.json_input⟩ fs
  run := sample_run

/-- A file table with two intact inputs and a damaged one. -/
def sampleFiles : Files :=
  [("a.pdf", [37, 80, 68, 70]), ("bad.pdf", [37, 80, 255, 70]), ("doc.json", [123, 125])]

/-- The log of a run in which the first `k` calls of `cs` returned and the
next call, when a thrown value is given, threw it. -/
def log_shape (cs : List Call) (k : Nat) (t : Option Thrown) : List Event :=
  (cs.take k).map (fun c => ⟨c, none⟩) ++
    match t, cs.get? k with
    | some x, some c => [⟨c, some x⟩]
    | _, _ => []

/-! ## General facts about sequencing and the handler -/

theorem andThen_assoc {W α β γ : Type} (r : Res W α) (f : α → W → Res W β)
    (g : β → W → Res W γ) :
    (r.andThen f).andThen g = r.andThen (fun a w => (f a w).andThen g) := by
  cases r <;> rfl

/-- A try block that ends in `return 0`, under the handler of a bridge
function: the job's return becomes `0`, the job's thrown value is rethrown
through `rethrown`; the world is the one the job left. -/
theorem catch_return_zero {W : Type} (lead : String) (job : Res W Unit) :
    catch_std_exception (job.andThen fun _ w => .ret (0 : Int) w)
        (fun m w => .raise (.runtime_error (lead ++ m)) w)
      = match job with
        | .ret _ w => .ret 0 w
        | .raise t w => .raise (rethrown lead t) w := by
  cases job with
  | ret a w => rfl
  | raise t w => cases t <;> rfl

theorem convert_pdf_to_json_eq {W J : Type} (L : QPDFJob W J) (i o : String) (w : W) :
    convert_pdf_to_json L i o w
      = match pdf_to_json_job L i o w with
        | .ret _ w1 => .ret 0 w1
        | .raise t w1 => .raise (rethrown "PDF conversion failed: " t) w1 := by
  rw [← catch_return_zero]
  simp only [convert_pdf_to_json, pdf_to_json_job, andThen_assoc]

theorem convert_json_to_pdf_eq {W J : Type} (L : QPDFJob W J) (i o : String) (w : W) :
    convert_json_to_pdf L i o w
      = match json_to_pdf_job L i o w with
        | .ret _ w1 => .ret 0 w1
        | .raise t w1 => .raise (rethrown "JSON conversion failed: " t) w1 := by
  rw [← catch_return_zero]
  simp only [convert_json_to_pdf, json_to_pdf_job, andThen_assoc]

/-- Shape of a traced run of `convert_pdf_to_json`. -/
theorem traced_pdf_to_json {W J : Type} (L : QPDFJob W J) (i o : String) (w : W) :
    (convert_pdf_to_json (traced L) i o (w, [])).unlog = convert_pdf_to_json L i o w ∧
    ((convert_pdf_to_json (traced L) i o (w, [])).log
        = log_shape (pdf_to_json_calls i o) 6 none ∧
      (convert_pdf_to_json L i o w).outcome = .ok 0 ∨
     ∃ k t, k < 6 ∧
      (convert_pdf_to_json (traced L) i o (w, [])).log
        = log_shape (pdf_to_json_calls i o) k (some t) ∧
      (convert_pdf_to_json L i o w).outcome
        = .error (rethrown "PDF conversion failed: " t)) := by
  simp only [convert_pdf_to_json, traced]
  cases h1 : L.construct w with
  | raise t w1 =>
    refine ⟨by cases t <;> rfl, Or.inr ⟨0, t, by decide, ?_, ?_⟩⟩ <;> cases t <;> rfl
  | ret j1 w1 =>
  cases h2 : L.config j1 w1 with
  | raise t w2 =>
    refine ⟨?_, Or.inr ⟨1, t, by decide, ?_, ?_⟩⟩ <;>
      simp only [logged, Res.andThen, h2] <;> cases t <;> rfl
  | ret j2 w2 =>
  cases h3 : L.inputFile j2 i w2 with
  | raise t w3 =>
    refine ⟨?_, Or.inr ⟨2, t, by decide, ?_, ?_⟩⟩ <;>
      simp only [logged, Res.andThen, h2, h3] <;> cases t <;> rfl
  | ret j3 w3 =>
  cases h4 : L.jsonOutput j3 "latest" w3 with
  | raise t w4 =>
    refine ⟨?_, Or.inr ⟨3, t, by decide, ?_, ?_⟩⟩ <;>
      simp only [logged, Res.andThen, h2, h3, h4] <;> cases t <;> rfl
  | ret j4 w4 =>
  cases h5 : L.outputFile j4 o w4 with
  | raise t w5 =>
    refine ⟨?_, Or.inr ⟨4, t, by decide, ?_, ?_⟩⟩ <;>
      simp only [logged, Res.andThen, h2, h3, h4, h5] <;> cases t <;> rfl
  | ret j5 w5 =>
  cases h6 : L.run j5 w5 with
  | raise t w6 =>
    refine ⟨?_, Or.inr ⟨5, t, by decide, ?_, ?_⟩⟩ <;>
      simp only [logged, Res.andThen, h2, h3, h4, h5, h6] <;> cases t <;> rfl
  | ret u w6 =>
    refine ⟨?_, Or.inl ⟨?_, ?_⟩⟩ <;>
      simp only [logged, Res.andThen, h2, h3, h4, h5, h6] <;> rfl

/-- Shape of a traced run of `convert_json_to_pdf`. -/
theorem traced_json_to_pdf {W J : Type} (L : QPDFJob W J) (i o : String) (w : W) :
    (convert_json_to_pdf (traced L) i o (w, [])).unlog = convert_json_to_pdf L i o w ∧
    ((convert_json_to_pdf (traced L) i o (w, [])).log
        = log_shape (json_to_pdf_calls i o) 6 none ∧
      (convert_json_to_pdf L i o w).outcome = .ok 0 ∨
     ∃ k t, k < 6 ∧
      (convert_json_to_pdf (traced L) i o (w, [])).log
        = log_shape (json_to_pdf_calls i o) k (some t) ∧
      (convert_json_to_pdf L i o w).outcome
        = .error (rethrown "JSON conversion failed: " t)) := by
  simp only [convert_json_to_pdf, traced]
  cases h1 : L.construct w with
  | raise t w1 =>
    refine ⟨by cases t <;> rfl, Or.inr ⟨0, t, by decide, ?_, ?_⟩⟩ <;> cases t <;> rfl
  | ret j1 w1 =>
  cases h2 : L.config j1 w1 with
  | raise t w2 =>
    refine ⟨?_, Or.inr ⟨1, t, by decide, ?_, ?_⟩⟩ <;>
      simp only [logged, Res.andThen, h2] <;> cases t <;> rfl
  | ret j2 w2 =>
  cases h3 : L.inputFile j2 i w2 with
  | raise t w3 =>
    refine ⟨?_, Or.inr ⟨2, t, by decide, ?_, ?_⟩⟩ <;>
      simp only [logged, Res.andThen, h2, h3] <;> cases t <;> rfl
  | ret j3 w3 =>
  cases h4 : L.jsonInput j3 w3 with
  | raise t w4 =>
    refine ⟨?_, Or.inr ⟨3, t, by decide, ?_, ?_⟩⟩ <;>
      simp only [logged, Res.andThen, h2, h3, h4] <;> cases t <;> rfl
  | ret j4 w4 =>
  cases h5 : L.outputFile j4 o w4 with
  | raise t w5 =>
    refine ⟨?_, Or.inr ⟨4, t, by decide, ?_, ?_⟩⟩ <;>
      simp only [logged, Res.andThen, h2, h3, h4, h5] <;> cases t <;> rfl
  | ret j5 w5 =>
  cases h6 : L.run j5 w5 with
  | raise t w6 =>
    refine ⟨?_, Or.inr ⟨5, t, by decide, ?_, ?_⟩⟩ <;>
      simp only [logged, Res.andThen, h2, h3, h4, h5, h6] <;> cases t <;> rfl
  | ret u w6 =>
    refine ⟨?_, Or.inl ⟨?_, ?_⟩⟩ <;>
      simp only [logged, Res.andThen, h2, h3, h4, h5, h6] <;> rfl

/-! ## Return value -/

/-- C1: for both bridge functions and all arguments, when the library calls
of the job all return, the call returns `0` (leaving the world the job left);
a call never returns an integer other than `0`; and every outcome is the value
`0` or a raised error. -/
theorem convert_returns_zero {W J : Type} (L : QPDFJob W J)
    (input_file output_file : String) (w : W) :
    (∀ w1, pdf_to_json_job L input_file output_file w = .ret () w1 →
        convert_pdf_to_json L input_file output_file w = .ret 0 w1) ∧
    (∀ w1, json_to_pdf_job L input_file output_file w = .ret () w1 →
        convert_json_to_pdf L input_file output_file w = .ret 0 w1) ∧
    (∀ n w1, convert_pdf_to_json L input_file output_file w = .ret n w1 → n = 0) ∧
    (∀ n w1, convert_json_to_pdf L input_file output_file w = .ret n w1 → n = 0) ∧
    ((convert_pdf_to_json L input_file output_file w).outcome = .ok 0 ∨
      ∃ t, (convert_pdf_to_json L input_file output_file w).outcome = .error t) ∧
    ((convert_json_to_pdf L input_file output_file w).outcome = .ok 0 ∨
      ∃ t, (convert_json_to_pdf L input_file output_file w).outcome = .error t) := by
  rw [convert_pdf_to_json_eq, convert_json_to_pdf_eq]
  refine ⟨?_, ?_, ?_, ?_, ?_, ?_⟩
  · intro w1 h
    rw [h]
  · intro w1 h
    rw [h]
  · intro n w1 h
    cases hj : pdf_to_json_job L input_file output_file w with
    | ret u w2 =>
      rw [hj] at h
      injection h with hn _
      exact hn.symm
    | raise t w2 =>
      rw [hj] at h
      cases h
  · intro n w1 h
    cases hj : json_to_pdf_job L input_file output_file w with
    | ret u w2 =>
      rw [hj] at h
      injection h with hn _
      exact hn.symm
    | raise t w2 =>
      rw [hj] at h
      cases h
  · cases pdf_to_json_job L input_file output_file w with
    | ret u w2 => exact Or.inl rfl
    | raise t w2 => exact Or.inr ⟨_, rfl⟩
  · cases json_to_pdf_job L input_file output_file w with
    | ret u w2 => exact Or.inl rfl
    | raise t w2 => exact Or.inr ⟨_, rfl⟩

/-- C1 at the sample library: both conversions of intact files return `0`. -/
theorem convert_returns_zero_witness :
    (pdf_to_json_job sampleLib "a.pdf" "a.json" sampleFiles
        = .ret () (sampleFiles.write "a.json" [37, 80, 68, 70]) ∧
      convert_pdf_to_json sampleLib "a.pdf" "a.json" sampleFiles
        = .ret 0 (sampleFiles.write "a.json" [37, 80, 68, 70])) ∧
    (json_to_pdf_job sampleLib "doc.json" "doc.pdf" sampleFiles
        = .ret () (sampleFiles.write "doc.pdf" [123, 125]) ∧
      convert_json_to_pdf sampleLib "doc.json" "doc.pdf" sampleFiles
        = .ret 0 (sampleFiles.write "doc.pdf" [123, 125])) ∧
    (convert_pdf_to_json sampleLib "a.pdf" "a.json" sampleFiles
        = .ret 0 (sampleFiles.write "a.json" [37, 80, 68, 70]) ∧ (0 : Int) = 0) ∧
    (convert_json_to_pdf sampleLib "doc.json" "doc.pdf" sampleFiles
        = .ret 0 (sampleFiles.write "doc.pdf" [123, 125]) ∧ (0 : Int) = 0) :=
  ⟨⟨by decide,
      (convert_returns_zero sampleLib "a.pdf" "a.json" sampleFiles).1 _ (by decide)⟩,
   ⟨by decide,
      (convert_returns_zero sampleLib "doc.json" "doc.pdf" sampleFiles).2.1 _ (by decide)⟩,
   ⟨by decide,
      (convert_returns_zero sampleLib "a.pdf" "a.json" sampleFiles).2.2.1 0
        (sampleFiles.write "a.json" [37, 80, 68, 70]) (by decide)⟩,
   ⟨by decide,
      (convert_returns_zero sampleLib "doc.json" "doc.pdf" sampleFiles).2.2.2.1 0
        (sampleFiles.write "doc.pdf" [123, 125]) (by decide)⟩⟩

/-! ## Translation of failures -/

/-- C2: `convert_pdf_to_json` raises a `std::runtime_error` (the
`RuntimeError` of the docstring) exactly when a library call of its job throws
a value derived from `std::exception`; when that value has `what()` equal to
`m`, the raised error's text is `"PDF conversion failed: "` followed by `m`,
and the world is the one the job left. -/
theorem convert_pdf_to_json_raises_iff {W J : Type} (L : QPDFJob W J)
    (input_file output_file : String) (w : W) :
    ((∃ msg w1, convert_pdf_to_json L input_file output_file w
          = .raise (.runtime_error msg) w1) ↔
      (∃ t m w1, pdf_to_json_job L input_file output_file w = .raise t w1 ∧
          t.what? = some m)) ∧
    (∀ t m w1, pdf_to_json_job L input_file output_file w = .raise t w1 →
        t.what? = some m →
        convert_pdf_to_json L input_file output_file w
          = .raise (.runtime_error ("PDF conversion failed: " ++ m)) w1) := by
  rw [convert_pdf_to_json_eq]
  constructor
  · constructor
    · rintro ⟨msg, w1, h⟩
      cases hj : pdf_to_json_job L input_file output_file w with
      | ret u w2 =>
        rw [hj] at h
        cases h
      | raise t w2 =>
        cases t with
        | runtime_error m => exact ⟨_, m, w2, rfl, rfl⟩
        | std_exception m => exact ⟨_, m, w2, rfl, rfl⟩
        | non_std tag =>
          rw [hj] at h
          cases h
    · rintro ⟨t, m, w1, hj, hm⟩
      rw [hj]
      simp only [rethrown, hm]
      exact ⟨_, _, rfl⟩
  · intro t m w1 hj hm
    rw [hj]
    simp only [rethrown, hm]

/-- C2 at the sample library: a missing input file. -/
theorem convert_pdf_to_json_raises_iff_witness :
    pdf_to_json_job sampleLib "none.pdf" "a.json" sampleFiles
      = .raise (.runtime_error "open none.pdf: No such file or directory") sampleFiles ∧
    convert_pdf_to_json sampleLib "none.pdf" "a.json" sampleFiles
      = .raise (.runtime_error
          ("PDF conversion failed: " ++ "open none.pdf: No such file or directory"))
          sampleFiles ∧
    (∃ msg w1, convert_pdf_to_json sampleLib "none.pdf" "a.json" sampleFiles
      = .raise (.runtime_error msg) w1) :=
  ⟨by decide,
   (convert_pdf_to_json_raises_iff sampleLib "none.pdf" "a.json" sampleFiles).2
      (.runtime_error "open none.pdf: No such file or directory")
      "open none.pdf: No such file or directory" sampleFiles (by decide) rfl,
   (convert_pdf_to_json_raises_iff sampleLib "none.pdf" "a.json" sampleFiles).1.mpr
      ⟨.runtime_error "open none.pdf: No such file or directory",
        "open none.pdf: No such file or directory", sampleFiles, by decide, rfl⟩⟩

/-- C3: when a library call of the job of `convert_json_to_pdf` throws a value
derived from `std::exception` with `what()` equal to `m`, the caller observes
one error, a `std::runtime_error` whose text is `"JSON conversion failed: "`
followed by `m`, and no returned value. -/
theorem convert_json_to_pdf_failure {W J : Type} (L : QPDFJob W J)
    (input_file output_file : String) (w : W) (t : Thrown) (m : String) (w1 : W)
    (hjob : json_to_pdf_job L input_file output_file w = .raise t w1)
    (hwhat : t.what? = some m) :
    convert_json_to_pdf L input_file output_file w
      = .raise (.runtime_error ("JSON conversion failed: " ++ m)) w1 ∧
    (convert_json_to_pdf L input_file output_file w).outcome
      = .error (.runtime_error ("JSON conversion failed: " ++ m)) ∧
    ∀ n, (convert_json_to_pdf L input_file output_file w).outcome ≠ .ok n := by
  have h : convert_json_to_pdf L input_file output_file w
      = .raise (.runtime_error ("JSON conversion failed: " ++ m)) w1 := by
    rw [convert_json_to_pdf_eq, hjob]
    simp only [rethrown, hwhat]
  refine ⟨h, ?_, ?_⟩
  · rw [h]
    rfl
  · intro n hn
    rw [h] at hn
    cases hn

/-- C3 at the sample library: a damaged input. -/
theorem convert_json_to_pdf_failure_witness :
    json_to_pdf_job sampleLib "bad.pdf" "out.pdf" sampleFiles
      = .raise (.std_exception "damaged input") (sampleFiles.write "out.pdf" [37, 80]) ∧
    (convert_json_to_pdf sampleLib "bad.pdf" "out.pdf" sampleFiles).outcome
      = .error (.runtime_error ("JSON conversion failed: " ++ "damaged input")) :=
  ⟨by decide,
   (convert_json_to_pdf_failure sampleLib "bad.pdf" "out.pdf" sampleFiles
      (.std_exception "damaged input") "damaged input"
      (sampleFiles.write "out.pdf" [37, 80]) (by decide) rfl).2.1⟩

/-! ## Independence of earlier calls -/

/-- C6: every call begins by constructing its own job; the outcome of a call
is computed from the outcome of the library calls of its job alone (`0` for a
return, the rethrown value for a thrown one); hence, whatever requests were
served before, two calls with the same arguments whose jobs behave alike have
the same outcome. -/
theorem outcome_determined_by_job {W J : Type} (L : QPDFJob W J) (r : Request) :
    (∀ w, ((serve (traced L) r (w, [])).log.head?).map Event.call = some Call.construct) ∧
    (∀ w, (serve L r w).outcome =
        match r, (job_of L r w).outcome with
        | _, .ok _ => .ok 0
        | .pdf_to_json _ _, .error t => .error (rethrown "PDF conversion failed: " t)
        | .json_to_pdf _ _, .error t => .error (rethrown "JSON conversion failed: " t)) ∧
    (∀ (before1 before2 : List Request) (w1 w2 : W),
        (job_of L r (world_after L before1 w1)).outcome
          = (job_of L r (world_after L before2 w2)).outcome →
        (serve L r (world_after L before1 w1)).outcome
          = (serve L r (world_after L before2 w2)).outcome) := by
  have key : ∀ w, (serve L r w).outcome =
        match r, (job_of L r w).outcome with
        | _, .ok _ => .ok 0
        | .pdf_to_json _ _, .error t => .error (rethrown "PDF conversion failed: " t)
        | .json_to_pdf _ _, .error t => .error (rethrown "JSON conversion failed: " t) := by
    intro w
    cases r with
    | pdf_to_json i o =>
      simp only [serve, job_of, convert_pdf_to_json_eq]
      cases pdf_to_json_job L i o w <;> rfl
    | json_to_pdf i o =>
      simp only [serve, job_of, convert_json_to_pdf_eq]
      cases json_to_pdf_job L i o w <;> rfl
  refine ⟨?_, key, ?_⟩
  · intro w
    cases r with
    | pdf_to_json i o =>
      obtain ⟨_, h⟩ := traced_pdf_to_json L i o w
      simp only [serve]
      rcases h with ⟨hlog, _⟩ | ⟨k, t, hk, hlog, _⟩
      · rw [hlog]
        rfl
      · rw [hlog]
        interval_cases k <;> rfl
    | json_to_pdf i o =>
      obtain ⟨_, h⟩ := traced_json_to_pdf L i o w
      simp only [serve]
      rcases h with ⟨hlog, _⟩ | ⟨k, t, hk, hlog, _⟩
      · rw [hlog]
        rfl
      · rw [hlog]
        interval_cases k <;> rfl
  · intro before1 before2 w1 w2 h
    rw [key, key, h]

/-- C6 at the sample library: the same conversion asked for at once and after
an earlier conversion. -/
theorem outcome_determined_by_job_witness :
    (job_of sampleLib (.json_to_pdf "doc.json" "doc.pdf")
        (world_after sampleLib [] sampleFiles)).outcome
      = (job_of sampleLib (.json_to_pdf "doc.json" "doc.pdf")
          (world_after sampleLib [.pdf_to_json "a.pdf" "a.json"] sampleFiles)).outcome ∧
    (serve sampleLib (.json_to_pdf "doc.json" "doc.pdf")
        (world_after sampleLib [] sampleFiles)).outcome
      = (serve sampleLib (.json_to_pdf "doc.json" "doc.pdf")
          (world_after sampleLib [.pdf_to_json "a.pdf" "a.json"] sampleFiles)).outcome :=
  ⟨rfl,
   (outcome_determined_by_job sampleLib (.json_to_pdf "doc.json" "doc.pdf")).2.2
      [] [.pdf_to_json "a.pdf" "a.json"] sampleFiles sampleFiles rfl⟩

/-! ## The calls made on the job -/

/-- C8: for every library and all arguments, a run of either bridge function
has one of two forms.  Either all six library calls returned, in source order,
and the call returns `0`; or the first `k < 6` calls returned, call number `k`
threw a value `t`, no later call was made, and the bridge raises
`rethrown lead t` with the leading text of the function, whichever call it
was.  Consequently a throwing call other than `run()` excludes `run()`, and a
thrown value derived from `std::exception` with text `m` surfaces as a
`std::runtime_error` with the leading text followed by `m`. -/
theorem steps_short_circuit {W J : Type} (L : QPDFJob W J)
    (input_file output_file : String) (w : W) :
    (((convert_pdf_to_json (traced L) input_file output_file (w, [])).log
          = log_shape (pdf_to_json_calls input_file output_file) 6 none ∧
        (convert_pdf_to_json L input_file output_file w).outcome = .ok 0 ∨
       ∃ k t, k < 6 ∧
        (convert_pdf_to_json (traced L) input_file output_file (w, [])).log
          = log_shape (pdf_to_json_calls input_file output_file) k (some t) ∧
        (convert_pdf_to_json L input_file output_file w).outcome
          = .error (rethrown "PDF conversion failed: " t)) ∧
      (∀ e ∈ (convert_pdf_to_json (traced L) input_file output_file (w, [])).log,
        ∀ t m, e.thrown = some t → t.what? = some m →
          (e.call ≠ Call.run → Call.run ∉
            (convert_pdf_to_json (traced L) input_file output_file (w, [])).log.map
              Event.call) ∧
          (convert_pdf_to_json (traced L) input_file output_file (w, [])).log.getLast?
            = some e ∧
          (convert_pdf_to_json L input_file output_file w).outcome
            = .error (.runtime_error ("PDF conversion failed: " ++ m)))) ∧
    (((convert_json_to_pdf (traced L) input_file output_file (w, [])).log
          = log_shape (json_to_pdf_calls input_file output_file) 6 none ∧
        (convert_json_to_pdf L input_file output_file w).outcome = .ok 0 ∨
       ∃ k t, k < 6 ∧
        (convert_json_to_pdf (traced L) input_file output_file (w, [])).log
          = log_shape (json_to_pdf_calls input_file output_file) k (some t) ∧
        (convert_json_to_pdf L input_file output_file w).outcome
          = .error (rethrown "JSON conversion failed: " t)) ∧
      (∀ e ∈ (convert_json_to_pdf (traced L) input_file output_file (w, [])).log,
        ∀ t m, e.thrown = some t → t.what? = some m →
          (e.call ≠ Call.run → Call.run ∉
            (convert_json_to_pdf (traced L) input_file output_file (w, [])).log.map
              Event.call) ∧
          (convert_json_to_pdf (traced L) input_file output_file (w, [])).log.getLast?
            = some e ∧
          (convert_json_to_pdf L input_file output_file w).outcome
            = .error (.runtime_error ("JSON conversion failed: " ++ m)))) := by
  constructor
  · obtain ⟨_, h⟩ := traced_pdf_to_json L input_file output_file w
    refine ⟨h, ?_⟩
    rcases h with ⟨hlog, _⟩ | ⟨k, t, hk, hlog, hout⟩
    · rw [hlog]
      intro e he t m ht
      simp [log_shape, pdf_to_json_calls] at he
      rcases he with rfl | rfl | rfl | rfl | rfl | rfl <;> simp at ht
    · rw [hlog, hout]
      intro e he x m hx hm
      interval_cases k <;>
        simp [log_shape, pdf_to_json_calls] at he ⊢ <;>
        rcases he with rfl | rfl | rfl | rfl | rfl | rfl | rfl <;>
        simp at hx ⊢ <;> subst hx <;> simp [rethrown, hm]
  · obtain ⟨_, h⟩ := traced_json_to_pdf L input_file output_file w
    refine ⟨h, ?_⟩
    rcases h with ⟨hlog, _⟩ | ⟨k, t, hk, hlog, hout⟩
    · rw [hlog]
      intro e he t m ht
      simp [log_shape, json_to_pdf_calls] at he
      rcases he with rfl | rfl | rfl | rfl | rfl | rfl <;> simp at ht
    · rw [hlog, hout]
      intro e he x m hx hm
      interval_cases k <;>
        simp [log_shape, json_to_pdf_calls] at he ⊢ <;>
        rcases he with rfl | rfl | rfl | rfl | rfl | rfl | rfl <;>
        simp at hx ⊢ <;> subst hx <;> simp [rethrown, hm]

/-- C8 at the sample library: `outputFile` rejects the name of the input
file, so `run()` is not called and the error carries the leading text of the
function that was called. -/
theorem steps_short_circuit_witness :
    ((⟨.outputFile "a.pdf", some (.runtime_error "input file and output file are the same")⟩
          : Event) ∈
        (convert_pdf_to_json (traced sampleLib) "a.pdf" "a.pdf" (sampleFiles, [])).log ∧
      Call.run ∉
        (convert_pdf_to_json (traced sampleLib) "a.pdf" "a.pdf" (sampleFiles, [])).log.map
          Event.call ∧
      (convert_pdf_to_json sampleLib "a.pdf" "a.pdf" sampleFiles).outcome
        = .error (.runtime_error
            ("PDF conversion failed: " ++ "input file and output file are the same"))) ∧
    ((⟨.outputFile "doc.json", some (.runtime_error "input file and output file are the same")⟩
          : Event) ∈
        (convert_json_to_pdf (traced sampleLib) "doc.json" "doc.json" (sampleFiles, [])).log ∧
      Call.run ∉
        (convert_json_to_pdf (traced sampleLib) "doc.json" "doc.json" (sampleFiles, [])).log.map
          Event.call ∧
      (convert_json_to_pdf sampleLib "doc.json" "doc.json" sampleFiles).outcome
        = .error (.runtime_error
            ("JSON conversion failed: " ++ "input file and output file are the same"))) :=
  ⟨⟨by decide,
    ((steps_short_circuit sampleLib "a.pdf" "a.pdf" sampleFiles).1.2
      ⟨.outputFile "a.pdf", some (.runtime_error "input file and output file are the same")⟩
      (by decide) (.runtime_error "input file and output file are the same")
      "input file and output file are the same" rfl rfl).1 (by decide),
    ((steps_short_circuit sampleLib "a.pdf" "a.pdf" sampleFiles).1.2
      ⟨.outputFile "a.pdf", some (.runtime_error "input file and output file are the same")⟩
      (by decide) (.runtime_error "input file and output file are the same")
      "input file and output file are the same" rfl rfl).2.2⟩,
   ⟨by decide,
    ((steps_short_circuit sampleLib "doc.json" "doc.json" sampleFiles).2.2
      ⟨.outputFile "doc.json", some (.runtime_error "input file and output file are the same")⟩
      (by decide) (.runtime_error "input file and output file are the same")
      "input file and output file are the same" rfl rfl).1 (by decide),
    ((steps_short_circuit sampleLib "doc.json" "doc.json" sampleFiles).2.2
      ⟨.outputFile "doc.json", some (.runtime_error "input file and output file are the same")⟩
      (by decide) (.runtime_error "input file and output file are the same")
      "input file and output file are the same" rfl rfl).2.2⟩⟩

end Pqdf
